import Mathlib

/-!
Shallow embedding of `src/main.py` (CTBattle/smart-backend): a FastAPI
gateway with a key/quota middleware, a `/generate` endpoint, a `/usage`
endpoint, and a Stripe `/webhook` endpoint that allocates API keys from
per-plan pools and emails them to customers.

Python dictionaries with string keys are modelled as total functions
`String → _` (for `request_counts`, defaulting to 0 as `dict.get(k, 0)`
does) or as association lists with `List.lookup` (for the literal
price→plan dictionary and `PLAN_LIMITS`). Python's `float('inf')` limit
is modelled by the `Limit.inf` constructor; finite limits are `Nat`.
`raise HTTPException` is modelled by returning an error outcome together
with the unchanged mutable state reached at that point; an uncaught
`KeyError` (from unguarded `session["metadata"]["price_id"]` indexing)
is a distinct outcome. The FastAPI `@app.middleware("http")` decorator
applies `check_api_key_and_limit` to every route, so each endpoint is
additionally modelled as a pipeline: middleware first, handler second.
-/

namespace SmartBackend

/-- `STARTER_KEYS` list from main.py lines 26-29. -/
def STARTER_KEYS : List String := ["battlekey001", "battlekey002", "battlekey003"]

/-- `PRO_KEYS` list from main.py lines 30-33. -/
def PRO_KEYS : List String := ["battlekey101", "battlekey102", "battlekey103"]

/-- `ENTERPRISE_KEYS` list from main.py lines 34-37. -/
def ENTERPRISE_KEYS : List String := ["battlekey201", "battlekey202", "battlekey203"]

/-- A plan limit: a finite integer or Python's `float('inf')`. -/
inductive Limit
  | fin (n : Nat)
  | inf
deriving DecidableEq

/-- `PLAN_LIMITS` dict from main.py lines 42-46. -/
def PLAN_LIMITS : List (String × Limit) :=
  [("starter", Limit.fin 10000), ("pro", Limit.fin 100000), ("enterprise", Limit.inf)]

/-- `PLAN_LIMITS[plan]` dictionary access (None models a `KeyError`). -/
def planLimit (plan : String) : Option Limit :=
  PLAN_LIMITS.lookup plan

/-- Python `count > PLAN_LIMITS[plan]`; any finite `count` compares `False`
against `float('inf')`. -/
def limitExceeded (count : Nat) : Limit → Bool
  | Limit.fin n => decide (n < count)
  | Limit.inf => false

/-- `get_plan` from main.py lines 48-55. -/
def get_plan (key : String) : Option String :=
  if key ∈ STARTER_KEYS then some "starter"
  else if key ∈ PRO_KEYS then some "pro"
  else if key ∈ ENTERPRISE_KEYS then some "enterprise"
  else none

/-- The mutable `request_counts` dict (main.py line 40), read through
`request_counts.get(key, 0)`, hence modelled as a total function with
default 0. -/
abbrev Counts := String → Nat

/-- Outcome of the `check_api_key_and_limit` middleware: proceed to the
route handler, or one of the raised `HTTPException`s (401 invalid/missing
key, 403 unauthorized plan, 429 limit exceeded); `internalError` models a
`KeyError` on `PLAN_LIMITS[plan]` (unreachable for plans produced by
`get_plan`). -/
inductive MwOutcome
  | proceed (plan : String)
  | err401
  | err403
  | err429
  | internalError
deriving DecidableEq

/-- `check_api_key_and_limit` middleware from main.py lines 57-74, up to
the point where it calls `call_next`: given the configured
`VALID_API_KEYS`, the current `request_counts` and the `X-API-KEY`
header, it returns the outcome and the updated `request_counts`.
Python's `not api_key` is true for a missing header and for `""`. -/
def check_api_key_and_limit (validKeys : List String) (counts : Counts)
    (header : Option String) : MwOutcome × Counts :=
  match header with
  | none => (MwOutcome.err401, counts)
  | some api_key =>
    if api_key = "" ∨ api_key ∉ validKeys then (MwOutcome.err401, counts)
    else
      match get_plan api_key with
      | none => (MwOutcome.err403, counts)
      | some plan =>
        match planLimit plan with
        | none => (MwOutcome.internalError, counts)
        | some lim =>
          let count := counts api_key + 1
          if limitExceeded count lim then (MwOutcome.err429, counts)
          else (MwOutcome.proceed plan, fun x => if x = api_key then count else counts x)

/-- `n` sequential requests through the middleware with the same header. -/
def iterate_check (validKeys : List String) (header : Option String) :
    Nat → Counts → Counts
  | 0, c => c
  | n + 1, c => (check_api_key_and_limit validKeys (iterate_check validKeys header n c) header).2

/-- `remaining` field of `/usage`: `limit - count` (a Python int, possibly
negative in principle) or the string `"Unlimited"` for an infinite limit. -/
inductive Remaining
  | val (n : Int)
  | unlimited
deriving DecidableEq

/-- Result of the `get_usage` handler (main.py lines 102-116). -/
inductive UsageResponse
  | ok (plan : String) (used : Nat) (remaining : Remaining)
  | err401
  | err403
  | internalError
deriving DecidableEq

/-- `get_usage` handler from main.py lines 102-116: re-reads the header,
re-validates the key, and reports `plan`, `used` and `remaining` without
writing to `request_counts`. -/
def get_usage (validKeys : List String) (counts : Counts)
    (header : Option String) : UsageResponse :=
  match header with
  | none => UsageResponse.err401
  | some api_key =>
    if api_key = "" ∨ api_key ∉ validKeys then UsageResponse.err401
    else
      let count := counts api_key
      match get_plan api_key with
      | none => UsageResponse.err403
      | some plan =>
        match planLimit plan with
        | none => UsageResponse.internalError
        | some (Limit.fin n) => UsageResponse.ok plan count (Remaining.val ((n : Int) - (count : Int)))
        | some Limit.inf => UsageResponse.ok plan count Remaining.unlimited

/-- HTTP-level outcome of a `GET /usage` request (middleware + handler). -/
inductive UsageHttpOutcome
  | unauthorized
  | forbidden
  | tooManyRequests
  | internal
  | handled (r : UsageResponse)
deriving DecidableEq

/-- Full `GET /usage` request: `check_api_key_and_limit` runs first (it is
registered with `@app.middleware("http")`, so it wraps every route); only
on success does `get_usage` run, against the already-updated counts. -/
def usage_pipeline (validKeys : List String) (counts : Counts)
    (header : Option String) : UsageHttpOutcome × Counts :=
  match check_api_key_and_limit validKeys counts header with
  | (MwOutcome.proceed _, counts') =>
      (UsageHttpOutcome.handled (get_usage validKeys counts' header), counts')
  | (MwOutcome.err401, counts') => (UsageHttpOutcome.unauthorized, counts')
  | (MwOutcome.err403, counts') => (UsageHttpOutcome.forbidden, counts')
  | (MwOutcome.err429, counts') => (UsageHttpOutcome.tooManyRequests, counts')
  | (MwOutcome.internalError, counts') => (UsageHttpOutcome.internal, counts')

/-- Result of the `generate_code` handler (main.py lines 80-94): 400 when
`body.get("prompt")` is missing or falsy, otherwise the request is
forwarded to the external completion client. -/
inductive GenerateResponse
  | forwarded
  | err400
deriving DecidableEq

/-- `generate_code` handler from main.py lines 80-94. The OpenAI call is
an external collaborator; the handler is modelled up to forwarding. -/
def generate_code (prompt : Option String) : GenerateResponse :=
  match prompt with
  | none => GenerateResponse.err400
  | some p => if p = "" then GenerateResponse.err400 else GenerateResponse.forwarded

/-- HTTP-level outcome of a `POST /generate` request. -/
inductive GenerateHttpOutcome
  | unauthorized
  | forbidden
  | tooManyRequests
  | internal
  | handled (r : GenerateResponse)
deriving DecidableEq

/-- Full `POST /generate` request: middleware, then handler. -/
def generate_pipeline (validKeys : List String) (counts : Counts)
    (header : Option String) (prompt : Option String) :
    GenerateHttpOutcome × Counts :=
  match check_api_key_and_limit validKeys counts header with
  | (MwOutcome.proceed _, counts') =>
      (GenerateHttpOutcome.handled (generate_code prompt), counts')
  | (MwOutcome.err401, counts') => (GenerateHttpOutcome.unauthorized, counts')
  | (MwOutcome.err403, counts') => (GenerateHttpOutcome.forbidden, counts')
  | (MwOutcome.err429, counts') => (GenerateHttpOutcome.tooManyRequests, counts')
  | (MwOutcome.internalError, counts') => (GenerateHttpOutcome.internal, counts')

/- ## Stripe webhook (main.py lines 118-176) -/

/-- The `data.object` session of a Stripe event, restricted to the fields
the handler reads: `session.get("customer_details", {}).get("email")`
(guarded, so absent fields give `none`) and `session["metadata"]`
(unguarded indexing, so an absent dict is a `KeyError`); `metadata` is a
string-keyed dict, indexed unguarded at `"price_id"`. -/
structure StripeSession where
  customer_email : Option String
  metadata : Option (List (String × String))
deriving DecidableEq

/-- A verified Stripe event: its id (never read by the handler — there is
no deduplication store in main.py), its `type`, and its session. -/
structure StripeEvent where
  id : String
  type : String
  session : StripeSession
deriving DecidableEq

/-- The two exceptions `stripe.Webhook.construct_event` can raise
(main.py lines 151-154). -/
inductive VerifyError
  | valueError
  | signatureVerificationError
deriving DecidableEq

/-- The mutable webhook-side state: the `UNUSED_KEYS` per-plan pools
(main.py lines 126-130) and the emails handed to `send_key_email`
(recipient, key, plan), most recent first. -/
structure WebhookState where
  pools : String → List String
  sent_emails : List (Option String × String × String)

/-- Initial `UNUSED_KEYS` dict: per-plan copies of the static key lists. -/
def UNUSED_KEYS : String → List String := fun plan =>
  if plan = "starter" then STARTER_KEYS
  else if plan = "pro" then PRO_KEYS
  else if plan = "enterprise" then ENTERPRISE_KEYS
  else []

/-- The initial webhook state: full pools, no emails sent. -/
def initialWebhookState : WebhookState :=
  { pools := UNUSED_KEYS, sent_emails := [] }

/-- `get_key_for_plan` from main.py lines 132-135: pop the head of the
plan's pool, or `None` when empty; returns the popped key and the updated
pools. -/
def get_key_for_plan (pools : String → List String) (plan : String) :
    Option String × (String → List String) :=
  match pools plan with
  | [] => (none, pools)
  | k :: rest => (some k, fun p => if p = plan then rest else pools p)

/-- The literal price-id → plan dict inside `stripe_webhook`
(main.py lines 161-165). -/
def PRICE_PLAN_MAP : List (String × String) :=
  [("price_1RJ5sJIIj61Y9MIRxvV1cMG6", "starter"),
   ("price_PRO_ID_HERE", "pro"),
   ("price_ENTERPRISE_ID_HERE", "enterprise")]

/-- Outcome of the `stripe_webhook` handler: the 200 `status: success`
body, the two 400 verification failures, the 400 `Unknown plan`
rejection, an uncaught `KeyError` from `session["metadata"]["price_id"]`,
or an uncaught exception propagating out of `send_key_email`. -/
inductive WebhookOutcome
  | success
  | invalidPayload
  | invalidSignature
  | unknownPlan
  | keyError
  | emailSendError
deriving DecidableEq

/-- `stripe_webhook` handler from main.py lines 146-176. Signature
verification is the external `stripe.Webhook.construct_event`, modelled
by its result `verify`; email delivery is the external `aiosmtplib.send`,
modelled by the flag `emailOk` (when false, `send_key_email` raises after
the pool was already mutated). -/
def stripe_webhook (verify : Except VerifyError StripeEvent) (emailOk : Bool)
    (st : WebhookState) : WebhookOutcome × WebhookState :=
  match verify with
  | Except.error VerifyError.valueError => (WebhookOutcome.invalidPayload, st)
  | Except.error VerifyError.signatureVerificationError => (WebhookOutcome.invalidSignature, st)
  | Except.ok event =>
    if event.type = "checkout.session.completed" then
      let customer_email := event.session.customer_email
      match event.session.metadata with
      | none => (WebhookOutcome.keyError, st)
      | some md =>
        match md.lookup "price_id" with
        | none => (WebhookOutcome.keyError, st)
        | some price_id =>
          match PRICE_PLAN_MAP.lookup price_id with
          | none => (WebhookOutcome.unknownPlan, st)
          | some plan =>
            match get_key_for_plan st.pools plan with
            | (some api_key, pools') =>
              if emailOk then
                (WebhookOutcome.success,
                  { pools := pools',
                    sent_emails := (customer_email, api_key, plan) :: st.sent_emails })
              else
                (WebhookOutcome.emailSendError,
                  { pools := pools', sent_emails := st.sent_emails })
            | (none, _) => (WebhookOutcome.success, st)
    else (WebhookOutcome.success, st)

/-- HTTP-level outcome of a `POST /webhook` request: the middleware
(registered on every route, `/webhook` included) may reject it before the
handler runs. -/
inductive WebhookHttpOutcome
  | unauthorized
  | forbidden
  | tooManyRequests
  | internal
  | handled (o : WebhookOutcome)
deriving DecidableEq

/-- Full `POST /webhook` request: `check_api_key_and_limit` first, then
`stripe_webhook`. -/
def webhook_pipeline (validKeys : List String) (counts : Counts)
    (header : Option String) (verify : Except VerifyError StripeEvent)
    (emailOk : Bool) (st : WebhookState) :
    WebhookHttpOutcome × Counts × WebhookState :=
  match check_api_key_and_limit validKeys counts header with
  | (MwOutcome.proceed _, counts') =>
      let r := stripe_webhook verify emailOk st
      (WebhookHttpOutcome.handled r.1, counts', r.2)
  | (MwOutcome.err401, counts') => (WebhookHttpOutcome.unauthorized, counts', st)
  | (MwOutcome.err403, counts') => (WebhookHttpOutcome.forbidden, counts', st)
  | (MwOutcome.err429, counts') => (WebhookHttpOutcome.tooManyRequests, counts', st)
  | (MwOutcome.internalError, counts') => (WebhookHttpOutcome.internal, counts', st)

/-- A concrete verified `checkout.session.completed` event carrying the
mapped starter price id, used for concrete evaluations. -/
def sampleCheckoutEvent : StripeEvent :=
  ⟨"evt_1", "checkout.session.completed",
   ⟨some "customer@example.com", some [("price_id", "price_1RJ5sJIIj61Y9MIRxvV1cMG6")]⟩⟩

/- ## Helper lemmas -/

/-- Middleware evaluation on a valid key of a finite-limit plan, below the
limit: increment and proceed. -/
theorem check_allowed (validKeys : List String) (k plan : String) (L : Nat)
    (c : Counts) (hne : k ≠ "") (hmem : k ∈ validKeys)
    (hplan : get_plan k = some plan) (hlim : planLimit plan = some (Limit.fin L))
    (h : c k < L) :
    check_api_key_and_limit validKeys c (some k) =
      (MwOutcome.proceed plan, fun x => if x = k then c k + 1 else c x) := by
  have hcond : ¬(k = "" ∨ k ∉ validKeys) := by push_neg; exact ⟨hne, hmem⟩
  have hex : limitExceeded (c k + 1) (Limit.fin L) = false := by
    simp only [limitExceeded, decide_eq_false_iff_not]
    omega
  simp only [check_api_key_and_limit, if_neg hcond, hplan, hlim, hex, Bool.false_eq_true,
    if_false]

/-- Middleware evaluation on a valid key of a finite-limit plan, at or
above the limit: raise 429 and leave `request_counts` unchanged. -/
theorem check_blocked (validKeys : List String) (k plan : String) (L : Nat)
    (c : Counts) (hne : k ≠ "") (hmem : k ∈ validKeys)
    (hplan : get_plan k = some plan) (hlim : planLimit plan = some (Limit.fin L))
    (h : L ≤ c k) :
    check_api_key_and_limit validKeys c (some k) = (MwOutcome.err429, c) := by
  have hcond : ¬(k = "" ∨ k ∉ validKeys) := by push_neg; exact ⟨hne, hmem⟩
  have hex : limitExceeded (c k + 1) (Limit.fin L) = true := by
    simp only [limitExceeded, decide_eq_true_eq]
    omega
  simp only [check_api_key_and_limit, if_neg hcond, hplan, hlim, hex, if_true]

/-- Iterating the middleware on a valid finite-limit key starting from a
fresh counter: the key's counter after `n` requests is `min n L`, and all
other counters are untouched. -/
theorem iterate_check_counts (validKeys : List String) (k plan : String) (L : Nat)
    (c0 : Counts) (hne : k ≠ "") (hmem : k ∈ validKeys)
    (hplan : get_plan k = some plan) (hlim : planLimit plan = some (Limit.fin L))
    (h0 : c0 k = 0) (n : Nat) :
    (iterate_check validKeys (some k) n c0) k = min n L ∧
    ∀ x, x ≠ k → (iterate_check validKeys (some k) n c0) x = c0 x := by
  induction n with
  | zero => exact ⟨by simpa using h0, fun x _ => rfl⟩
  | succ n ih =>
    obtain ⟨ihk, ihx⟩ := ih
    by_cases h : (iterate_check validKeys (some k) n c0) k < L
    · have hstep := check_allowed validKeys k plan L _ hne hmem hplan hlim h
      refine ⟨?_, ?_⟩
      · simp only [iterate_check]
        rw [hstep]
        show (if k = k then iterate_check validKeys (some k) n c0 k + 1
              else iterate_check validKeys (some k) n c0 k) = min (n + 1) L
        rw [if_pos rfl, ihk]
        rw [ihk] at h
        omega
      · intro x hx
        simp only [iterate_check]
        rw [hstep]
        show (if x = k then iterate_check validKeys (some k) n c0 k + 1
              else iterate_check validKeys (some k) n c0 x) = c0 x
        rw [if_neg hx]
        exact ihx x hx
    · have hstep := check_blocked validKeys k plan L
        (iterate_check validKeys (some k) n c0) hne hmem hplan hlim (by omega)
      refine ⟨?_, ?_⟩
      · simp only [iterate_check]
        rw [hstep]
        show iterate_check validKeys (some k) n c0 k = min (n + 1) L
        rw [ihk]
        rw [ihk] at h
        omega
      · intro x hx
        simp only [iterate_check]
        rw [hstep]
        exact ihx x hx

/- ## Claims -/

/-- C1: for every key whose plan has a finite limit `L`, sequential
middleware calls are a hard ceiling: a call with current count `< L`
increments the counter by one and is allowed (proceeds); a call with
current count `≥ L` is rejected 429 with all counters unchanged;
starting from a fresh counter the first `L` calls are all allowed, the
`(L+1)`-th is rejected 429, and the counter never exceeds `L`. -/
theorem quota_hard_ceiling (validKeys : List String) (k plan : String) (L : Nat)
    (c0 : Counts) (hne : k ≠ "") (hmem : k ∈ validKeys)
    (hplan : get_plan k = some plan) (hlim : planLimit plan = some (Limit.fin L))
    (h0 : c0 k = 0) :
    (∀ c : Counts, c k < L →
        (check_api_key_and_limit validKeys c (some k)).1 = MwOutcome.proceed plan ∧
        (check_api_key_and_limit validKeys c (some k)).2 k = c k + 1) ∧
    (∀ c : Counts, L ≤ c k →
        check_api_key_and_limit validKeys c (some k) = (MwOutcome.err429, c)) ∧
    (∀ i, i < L →
        (check_api_key_and_limit validKeys
          (iterate_check validKeys (some k) i c0) (some k)).1 = MwOutcome.proceed plan) ∧
    (check_api_key_and_limit validKeys
        (iterate_check validKeys (some k) L c0) (some k)).1 = MwOutcome.err429 ∧
    (∀ n, (iterate_check validKeys (some k) n c0) k ≤ L) := by
  have hiter := iterate_check_counts validKeys k plan L c0 hne hmem hplan hlim h0
  refine ⟨?_, ?_, ?_, ?_, ?_⟩
  · intro c hc
    rw [check_allowed validKeys k plan L c hne hmem hplan hlim hc]
    exact ⟨rfl, by simp⟩
  · intro c hc
    exact check_blocked validKeys k plan L c hne hmem hplan hlim hc
  · intro i hi
    rw [check_allowed validKeys k plan L _ hne hmem hplan hlim (by rw [(hiter i).1]; omega)]
  · rw [check_blocked validKeys k plan L _ hne hmem hplan hlim (by rw [(hiter L).1]; omega)]
  · intro n
    rw [(hiter n).1]
    omega

/-- Witness for C1 at the concrete configuration: valid starter key with
limit 10000 and a fresh counter — the call after 10000 requests is
rejected 429, and after 10001 requests the counter is still at most
10000. -/
theorem quota_hard_ceiling_witness :
    (check_api_key_and_limit ["battlekey001"]
        (iterate_check ["battlekey001"] (some "battlekey001") 10000 (fun _ => 0))
        (some "battlekey001")).1 = MwOutcome.err429 ∧
    (iterate_check ["battlekey001"] (some "battlekey001") 10001 (fun _ => 0))
        "battlekey001" ≤ 10000 := by
  have h := quota_hard_ceiling ["battlekey001"] "battlekey001" "starter" 10000
    (fun _ => 0) (by decide) (by decide) (by rfl) (by rfl) rfl
  exact ⟨h.2.2.2.1, h.2.2.2.2 10001⟩

/-- C2: the code keeps no record of processed EventIds — `stripe_webhook`
never reads `event["id"]` — so delivering the same verified
`checkout.session.completed` event twice pops a second key from the
starter pool and sends a second email: after the replay two emails have
been sent (with two distinct keys) and the pool has shrunk by two,
refuting the claimed idempotency. -/
theorem webhook_replay_double_allocation :
    (stripe_webhook (Except.ok sampleCheckoutEvent) true initialWebhookState).1 =
      WebhookOutcome.success ∧
    (stripe_webhook (Except.ok sampleCheckoutEvent) true
        (stripe_webhook (Except.ok sampleCheckoutEvent) true initialWebhookState).2).1 =
      WebhookOutcome.success ∧
    (stripe_webhook (Except.ok sampleCheckoutEvent) true
        (stripe_webhook (Except.ok sampleCheckoutEvent) true initialWebhookState).2).2.sent_emails =
      [(some "customer@example.com", "battlekey002", "starter"),
       (some "customer@example.com", "battlekey001", "starter")] ∧
    (stripe_webhook (Except.ok sampleCheckoutEvent) true
        (stripe_webhook (Except.ok sampleCheckoutEvent) true initialWebhookState).2).2.pools "starter" =
      ["battlekey003"] :=
  ⟨rfl, rfl, rfl, rfl⟩

/-- C3: `POST /webhook` is NOT exempt from the key/quota middleware: with
no `X-API-KEY` header every webhook request — whatever the signature
verification result — is rejected 401 before `stripe_webhook` runs and
no webhook side effect happens; and with a valid API key supplied, the
identical verified payload is processed and that key's quota counter is
incremented, so the outcome does depend on the key header and a webhook
call does consume quota. -/
theorem webhook_requires_api_key :
    (∀ (validKeys : List String) (c : Counts) (v : Except VerifyError StripeEvent)
        (e : Bool) (st : WebhookState),
      webhook_pipeline validKeys c none v e st = (WebhookHttpOutcome.unauthorized, c, st)) ∧
    (webhook_pipeline ["battlekey001"] (fun _ => 0) (some "battlekey001")
        (Except.ok sampleCheckoutEvent) true initialWebhookState).1 =
      WebhookHttpOutcome.handled WebhookOutcome.success ∧
    (webhook_pipeline ["battlekey001"] (fun _ => 0) (some "battlekey001")
        (Except.ok sampleCheckoutEvent) true initialWebhookState).2.1 "battlekey001" = 1 :=
  ⟨fun _ _ _ _ _ => rfl, rfl, rfl⟩

/-- C4 counterexample: a `GET /usage` query is not read-only. On a fresh
valid starter key, the query itself reports `used = 1` and
`remaining = 9999` (not `used = 0`, `remaining = 10000`) because the
middleware already incremented the counter, and the key's counter after
the query is 1, not 0. -/
theorem usage_query_increments_counter :
    (usage_pipeline ["battlekey001"] (fun _ => 0) (some "battlekey001")).1 =
      UsageHttpOutcome.handled (UsageResponse.ok "starter" 1 (Remaining.val 9999)) ∧
    (usage_pipeline ["battlekey001"] (fun _ => 0) (some "battlekey001")).2 "battlekey001" = 1 :=
  ⟨rfl, rfl⟩

/-- C4 amended: the `get_usage` handler performs no writes itself, but
every `/usage` request first passes through `check_api_key_and_limit`,
which increments the key's counter; so a usage query on a valid
finite-limit key below its limit reports `used = count + 1` and
`remaining = limit - (count + 1)`, sets that key's counter to
`count + 1`, and leaves every other counter unchanged. -/
theorem usage_pipeline_reports_incremented (validKeys : List String) (k plan : String)
    (L : Nat) (c : Counts) (hne : k ≠ "") (hmem : k ∈ validKeys)
    (hplan : get_plan k = some plan) (hlim : planLimit plan = some (Limit.fin L))
    (hlt : c k < L) :
    (usage_pipeline validKeys c (some k)).1 =
      UsageHttpOutcome.handled (UsageResponse.ok plan (c k + 1)
        (Remaining.val ((L : Int) - ((c k + 1 : Nat) : Int)))) ∧
    (usage_pipeline validKeys c (some k)).2 k = c k + 1 ∧
    ∀ x, x ≠ k → (usage_pipeline validKeys c (some k)).2 x = c x := by
  have hcond : ¬(k = "" ∨ k ∉ validKeys) := by push_neg; exact ⟨hne, hmem⟩
  have hstep := check_allowed validKeys k plan L c hne hmem hplan hlim hlt
  have hget : get_usage validKeys (fun x => if x = k then c k + 1 else c x) (some k) =
      UsageResponse.ok plan (c k + 1) (Remaining.val ((L : Int) - ((c k + 1 : Nat) : Int))) := by
    simp [get_usage, hcond, hplan, hlim]
  refine ⟨?_, ?_, ?_⟩
  · simp only [usage_pipeline, hstep]
    rw [hget]
  · simp only [usage_pipeline, hstep]
    simp
  · intro x hx
    simp only [usage_pipeline, hstep]
    simp [hx]

/-- Witness for C4's amended theorem at the concrete configuration:
fresh valid starter key. -/
theorem usage_pipeline_reports_incremented_witness :
    (usage_pipeline ["battlekey002"] (fun _ => 0) (some "battlekey002")).1 =
      UsageHttpOutcome.handled (UsageResponse.ok "starter" 1 (Remaining.val 9999)) ∧
    (usage_pipeline ["battlekey002"] (fun _ => 0) (some "battlekey002")).2 "battlekey002" = 1 := by
  have h := usage_pipeline_reports_incremented ["battlekey002"] "battlekey002" "starter"
    10000 (fun _ => 0) (by decide) (by decide) rfl rfl (by norm_num)
  exact ⟨h.1, h.2.1⟩

/-- C5 counterexample: a key that is still sitting in the starter pool is
nevertheless resolved by the registry lookup (`get_plan`) and authorized
by the request-time middleware when it is configured in
`VALID_API_KEYS` — neither consults the pools, so pool membership does
not make a key inactive. -/
theorem pooled_key_still_authorized :
    "battlekey001" ∈ initialWebhookState.pools "starter" ∧
    get_plan "battlekey001" = some "starter" ∧
    (check_api_key_and_limit ["battlekey001"] (fun _ => 0) (some "battlekey001")).1 =
      MwOutcome.proceed "starter" :=
  ⟨by decide, rfl, rfl⟩

/-- Case analysis of `stripe_webhook`'s effect on each pool: every branch
leaves a pool untouched except the successful allocation branch, which
removes exactly the head of the allocated plan's pool. -/
theorem stripe_webhook_pools_cases (v : Except VerifyError StripeEvent) (e : Bool)
    (st : WebhookState) (p : String) :
    (stripe_webhook v e st).2.pools p = st.pools p ∨
    (stripe_webhook v e st).2.pools p = (st.pools p).drop 1 := by
  rcases v with verr | ev
  · cases verr <;> exact Or.inl rfl
  · by_cases ht : ev.type = "checkout.session.completed"
    · rcases hmd : ev.session.metadata with _ | md
      · simp [stripe_webhook, ht, hmd]
      · rcases hpid : md.lookup "price_id" with _ | price_id
        · simp [stripe_webhook, ht, hmd, hpid]
        · rcases hplan : PRICE_PLAN_MAP.lookup price_id with _ | plan
          · simp [stripe_webhook, ht, hmd, hpid, hplan]
          · rcases hpool : st.pools plan with _ | ⟨k, rest⟩
            · simp [stripe_webhook, ht, hmd, hpid, hplan, get_key_for_plan, hpool]
            · by_cases hpq : p = plan
              · subst hpq
                right
                cases e <;> simp [stripe_webhook, ht, hmd, hpid, hplan, get_key_for_plan, hpool]
              · left
                cases e <;>
                  simp [stripe_webhook, ht, hmd, hpid, hplan, get_key_for_plan, hpool, hpq]
    · simp [stripe_webhook, ht]

/-- C5 amended: keys in a pool are not rejected before allocation —
`get_plan` resolves a pooled key and the middleware accepts it whenever
it is in `VALID_API_KEYS` (first conjunct, at the concrete pooled key
`"battlekey001"`); what does hold is permanence of removal: allocation
pops exactly the head of the plan's pool and touches no other pool, and
no webhook execution ever re-inserts a key — every pool after a webhook
is the original pool or the original with its head removed, so pool
contents only ever shrink. -/
theorem pool_pop_permanent :
    ("battlekey001" ∈ UNUSED_KEYS "starter" ∧
      get_plan "battlekey001" = some "starter") ∧
    (∀ (pools : String → List String) (plan : String),
        (get_key_for_plan pools plan).2 plan = (pools plan).drop 1 ∧
        ∀ q, q ≠ plan → (get_key_for_plan pools plan).2 q = pools q) ∧
    (∀ (v : Except VerifyError StripeEvent) (e : Bool) (st : WebhookState) (p : String),
        (stripe_webhook v e st).2.pools p = st.pools p ∨
        (stripe_webhook v e st).2.pools p = (st.pools p).drop 1) ∧
    (∀ (v : Except VerifyError StripeEvent) (e : Bool) (st : WebhookState) (p : String)
        (x : String), x ∈ (stripe_webhook v e st).2.pools p → x ∈ st.pools p) := by
  refine ⟨⟨by decide, rfl⟩, ?_, stripe_webhook_pools_cases, ?_⟩
  · intro pools plan
    rcases hpool : pools plan with _ | ⟨k, rest⟩
    · constructor
      · simp [get_key_for_plan, hpool]
      · intro q hq
        simp [get_key_for_plan, hpool]
    · constructor
      · simp [get_key_for_plan, hpool]
      · intro q hq
        simp [get_key_for_plan, hpool, hq]
  · intro v e st p x hx
    rcases stripe_webhook_pools_cases v e st p with h | h
    · rwa [h] at hx
    · rw [h] at hx
      exact List.drop_subset 1 (st.pools p) hx

/-- Witness for C5's amended theorem: popping from the initial starter
pool leaves exactly the tail, and the pro pool untouched. -/
theorem pool_pop_permanent_witness :
    (get_key_for_plan UNUSED_KEYS "starter").2 "starter" = ["battlekey002", "battlekey003"] ∧
    (get_key_for_plan UNUSED_KEYS "starter").2 "pro" = PRO_KEYS :=
  ⟨((pool_pop_permanent.2.1 UNUSED_KEYS "starter").1).trans (by decide),
   ((pool_pop_permanent.2.1 UNUSED_KEYS "starter").2 "pro" (by decide)).trans (by decide)⟩

/-- C6 counterexample: a `/generate` request whose handler rejects it
(missing prompt, 400) still increments the key's counter, because the
middleware increments before `call_next` runs the handler — a failure
path that consumes quota without admitting the call. -/
theorem generate_reject_still_increments :
    (generate_pipeline ["battlekey001"] (fun _ => 0) (some "battlekey001") none).1 =
      GenerateHttpOutcome.handled GenerateResponse.err400 ∧
    (generate_pipeline ["battlekey001"] (fun _ => 0) (some "battlekey001") none).2 "battlekey001" = 1 :=
  ⟨rfl, rfl⟩

/-- C6 amended: the counter is incremented exactly when the request passes
the middleware's key and quota checks, regardless of what the handler
then does: any `/generate` request on a valid finite-limit key below its
limit increments that key's counter by one, and the handler's answer is
400 when the prompt is missing or empty and a forwarded call otherwise —
so a handler-rejected request still counts against the quota. -/
theorem generate_pipeline_increments_before_handler (validKeys : List String)
    (k plan : String) (L : Nat) (c : Counts) (prompt : Option String)
    (hne : k ≠ "") (hmem : k ∈ validKeys) (hplan : get_plan k = some plan)
    (hlim : planLimit plan = some (Limit.fin L)) (hlt : c k < L) :
    (generate_pipeline validKeys c (some k) prompt).1 =
      GenerateHttpOutcome.handled (generate_code prompt) ∧
    (generate_pipeline validKeys c (some k) prompt).2 k = c k + 1 ∧
    ((prompt = none ∨ prompt = some "") →
      (generate_pipeline validKeys c (some k) prompt).1 =
        GenerateHttpOutcome.handled GenerateResponse.err400) ∧
    (∀ p, prompt = some p → p ≠ "" →
      (generate_pipeline validKeys c (some k) prompt).1 =
        GenerateHttpOutcome.handled GenerateResponse.forwarded) := by
  have hstep := check_allowed validKeys k plan L c hne hmem hplan hlim hlt
  refine ⟨?_, ?_, ?_, ?_⟩
  · simp only [generate_pipeline, hstep]
  · simp only [generate_pipeline, hstep]
    simp
  · rintro (hp | hp) <;> subst hp <;> simp only [generate_pipeline, hstep] <;> rfl
  · intro p hp hpne
    subst hp
    simp only [generate_pipeline, hstep]
    simp [generate_code, hpne]

/-- Witness for C6's amended theorem: fresh valid starter key, missing
prompt. -/
theorem generate_pipeline_increments_before_handler_witness :
    (generate_pipeline ["battlekey003"] (fun _ => 0) (some "battlekey003") none).1 =
      GenerateHttpOutcome.handled GenerateResponse.err400 ∧
    (generate_pipeline ["battlekey003"] (fun _ => 0) (some "battlekey003") none).2
      "battlekey003" = 1 := by
  have h := generate_pipeline_increments_before_handler ["battlekey003"] "battlekey003"
    "starter" 10000 (fun _ => 0) none (by decide) (by decide) rfl rfl (by norm_num)
  exact ⟨h.2.2.1 (Or.inl rfl), h.2.1⟩

/-- C7: when email delivery fails after a successful allocation, the
popped key stays allocated: the handler raises out of `send_key_email`
with the plan's pool already reduced to its tail (the key is not
returned), every other pool untouched, and no email recorded — in
particular no second key is popped to compensate. -/
theorem failed_email_keeps_allocation (ev : StripeEvent) (md : List (String × String))
    (price_id plan k : String) (rest : List String) (st : WebhookState)
    (ht : ev.type = "checkout.session.completed")
    (hmd : ev.session.metadata = some md)
    (hpid : md.lookup "price_id" = some price_id)
    (hplan : PRICE_PLAN_MAP.lookup price_id = some plan)
    (hpool : st.pools plan = k :: rest) :
    (stripe_webhook (Except.ok ev) false st).1 = WebhookOutcome.emailSendError ∧
    (stripe_webhook (Except.ok ev) false st).2.pools plan = rest ∧
    (∀ q, q ≠ plan → (stripe_webhook (Except.ok ev) false st).2.pools q = st.pools q) ∧
    (stripe_webhook (Except.ok ev) false st).2.sent_emails = st.sent_emails := by
  have heval : stripe_webhook (Except.ok ev) false st =
      (WebhookOutcome.emailSendError,
       { pools := fun p => if p = plan then rest else st.pools p,
         sent_emails := st.sent_emails }) := by
    simp only [stripe_webhook, ht, hmd, hpid, hplan, get_key_for_plan, hpool, if_pos,
      Bool.false_eq_true, if_false]
  rw [heval]
  exact ⟨rfl, by simp, fun q hq => by simp [hq], rfl⟩

/-- Witness for C7 at the concrete starter checkout event with the
initial pools and failing email delivery. -/
theorem failed_email_keeps_allocation_witness :
    (stripe_webhook (Except.ok sampleCheckoutEvent) false initialWebhookState).1 =
      WebhookOutcome.emailSendError ∧
    (stripe_webhook (Except.ok sampleCheckoutEvent) false initialWebhookState).2.pools
      "starter" = ["battlekey002", "battlekey003"] ∧
    (stripe_webhook (Except.ok sampleCheckoutEvent) false initialWebhookState).2.sent_emails
      = [] := by
  have h := failed_email_keeps_allocation sampleCheckoutEvent
    [("price_id", "price_1RJ5sJIIj61Y9MIRxvV1cMG6")] "price_1RJ5sJIIj61Y9MIRxvV1cMG6"
    "starter" "battlekey001" ["battlekey002", "battlekey003"] initialWebhookState
    rfl rfl rfl rfl rfl
  exact ⟨h.1, h.2.1, h.2.2.2⟩

/-- C8: a verified `checkout.session.completed` event whose
`metadata["price_id"]` is present but not in the price→plan map is
rejected with `Unknown plan` and the whole webhook state — every pool and
the sent-email log — is returned unchanged. -/
theorem unknown_plan_rejected (ev : StripeEvent) (md : List (String × String))
    (price_id : String) (emailOk : Bool) (st : WebhookState)
    (ht : ev.type = "checkout.session.completed")
    (hmd : ev.session.metadata = some md)
    (hpid : md.lookup "price_id" = some price_id)
    (hplan : PRICE_PLAN_MAP.lookup price_id = none) :
    stripe_webhook (Except.ok ev) emailOk st = (WebhookOutcome.unknownPlan, st) := by
  simp only [stripe_webhook, ht, hmd, hpid, hplan, if_pos]

/-- Witness for C8 at the concrete unmapped price id `"price_unknown"`. -/
theorem unknown_plan_rejected_witness :
    stripe_webhook (Except.ok ⟨"evt_u", "checkout.session.completed",
        ⟨some "customer@example.com", some [("price_id", "price_unknown")]⟩⟩) true
      initialWebhookState = (WebhookOutcome.unknownPlan, initialWebhookState) :=
  unknown_plan_rejected _ [("price_id", "price_unknown")] "price_unknown" true
    initialWebhookState rfl rfl rfl rfl

/-- C10: a verified `checkout.session.completed` event whose session has
no `"metadata"` dict, or whose metadata has no `"price_id"` entry, makes
the handler's unguarded `session["metadata"]["price_id"]` indexing raise
an uncaught `KeyError` (the `keyError` outcome, distinct from every clean
rejection), with the webhook state unchanged. -/
theorem missing_metadata_key_error (ev : StripeEvent) (emailOk : Bool) (st : WebhookState)
    (ht : ev.type = "checkout.session.completed")
    (hmd : ev.session.metadata = none ∨
      ∃ md, ev.session.metadata = some md ∧ md.lookup "price_id" = none) :
    stripe_webhook (Except.ok ev) emailOk st = (WebhookOutcome.keyError, st) := by
  rcases hmd with hmd | ⟨md, hmd, hpid⟩
  · simp only [stripe_webhook, ht, hmd, if_pos]
  · simp only [stripe_webhook, ht, hmd, hpid, if_pos]

/-- Witness for C10 at a concrete verified checkout event with no
`metadata` dict. -/
theorem missing_metadata_key_error_witness :
    stripe_webhook (Except.ok ⟨"evt_m", "checkout.session.completed",
        ⟨some "customer@example.com", none⟩⟩) true initialWebhookState =
      (WebhookOutcome.keyError, initialWebhookState) :=
  missing_metadata_key_error _ true initialWebhookState rfl (Or.inl rfl)

end SmartBackend
